import Mathlib

/-!
Shallow embedding of `src/docs/conf.py`, the Sphinx documentation
configuration module of the hyperion::mpl repository, together with an
evaluator for the small fragment of Python that the module uses, and
theorems about the evaluation of the module.

The module consists only of top-level statements: one `from ... import ...`,
one `import a, b` (two imports), one `subprocess.call("doxygen Doxyfile",
shell=True)`, and a sequence of assignments of constant literals.  The
evaluator is parameterized by an oracle giving the exit status of each
external-process call, since that status is the only input the module
receives from its environment.
-/

namespace ConfPy

/-- Python runtime values that can appear in the module: strings, integers,
booleans, lists, tuples and string-keyed dictionaries.  The `tuple`
constructor is present so that the distinction between the parenthesized
string `('members')` and a one-element tuple `('members',)` is expressible. -/
inductive Value where
  | str : String → Value
  | int : Int → Value
  | bool : Bool → Value
  | list : List Value → Value
  | tuple : List Value → Value
  | dict : List (String × Value) → Value

/-- Expressions occurring on the right-hand side of assignments in the
module: constant literals, parenthesized (grouped) expressions, and name
references.  In Python, parentheses around a single expression with no
trailing comma are pure grouping: `('members')` is `paren (lit "members")`,
not a tuple display. -/
inductive PyExpr where
  | lit : Value → PyExpr
  | paren : PyExpr → PyExpr
  | name : String → PyExpr

/-- Top-level Python statements of the fragment used by `conf.py`, plus the
statement forms the module does NOT use (function and class definitions,
conditionals, `for` loops), so that their absence is a statement about the
transcribed module and not about the syntax type. -/
inductive Stmt where
  | importStmt : String → Stmt
  | fromImport : String → List String → Stmt
  | assign : String → PyExpr → Stmt
  | subprocessCall : String → Bool → Stmt
  | funcDef : String → List Stmt → Stmt
  | classDef : String → List Stmt → Stmt
  | ifStmt : PyExpr → List Stmt → List Stmt → Stmt
  | forLoop : String → PyExpr → List Stmt → Stmt

/-- Observable events of one evaluation of the module, in order. -/
inductive Event where
  | imported : String → Event
  | fromImported : String → List String → Event
  | assigned : String → Value → Event
  | calledProcess : String → Int → Event

/-- Evaluation state: the module namespace built so far (assignments in
order), the event trace, and whether evaluation has halted (a raised
exception, or a statement form outside the supported fragment). -/
structure EvalState where
  env : List (String × Value)
  trace : List Event
  halted : Bool

def initState : EvalState := { env := [], trace := [], halted := false }

/-- Evaluate an expression in an environment.  A reference to an unbound
name yields `none` (a `NameError` in Python). -/
def evalExpr (env : List (String × Value)) : PyExpr → Option Value
  | .lit v => some v
  | .paren e => evalExpr env e
  | .name n => env.reverse.lookup n

/-- Number of external-process calls recorded in a trace; used to index the
exit-status oracle. -/
def callCount (t : List Event) : Nat :=
  t.countP fun e =>
    match e with
    | .calledProcess _ _ => true
    | _ => false

/-- Execute one top-level statement.  `os k` is the exit status returned by
the `k`-th external-process call.  Statement forms outside the module's
fragment halt evaluation, as does a failing assignment; `subprocess.call`
records the command and its exit status and continues regardless of that
status. -/
def execStmt (os : Nat → Int) (st : EvalState) : Stmt → EvalState
  | stmt =>
    if st.halted then st
    else
      match stmt with
      | .importStmt m => { st with trace := st.trace ++ [.imported m] }
      | .fromImport m ns => { st with trace := st.trace ++ [.fromImported m ns] }
      | .assign n rhs =>
        match evalExpr st.env rhs with
        | some v =>
          { st with env := st.env ++ [(n, v)], trace := st.trace ++ [.assigned n v] }
        | none => { st with halted := true }
      | .subprocessCall cmd _shell =>
        { st with trace := st.trace ++ [.calledProcess cmd (os (callCount st.trace))] }
      | .funcDef _ _ => { st with halted := true }
      | .classDef _ _ => { st with halted := true }
      | .ifStmt _ _ _ => { st with halted := true }
      | .forLoop _ _ _ => { st with halted := true }

def runStmts (os : Nat → Int) : EvalState → List Stmt → EvalState
  | st, [] => st
  | st, s :: rest => runStmts os (execStmt os st s) rest

/-- The statements of `src/docs/conf.py`, in source order, one constructor
per top-level statement. -/
def conf_py : List Stmt :=
  [ .fromImport "sphinx.builders.html" ["StandaloneHTMLBuilder"],
    .importStmt "subprocess",
    .importStmt "os",
    .subprocessCall "doxygen Doxyfile" true,
    .assign "project" (.lit (.str "hyperion::mpl")),
    .assign "copyright" (.lit (.str "2024, Braxton Salyer <braxtonsalyer@gmail.com>")),
    .assign "author" (.lit (.str "Braxton Salyer <braxtonsalyer@gmail.com>")),
    .assign "extensions" (.lit (.list
      [ .str "sphinx.ext.autodoc",
        .str "sphinx.ext.autosummary",
        .str "sphinx.ext.intersphinx",
        .str "sphinx.ext.autosectionlabel",
        .str "sphinx.ext.todo",
        .str "sphinx.ext.coverage",
        .str "sphinx.ext.mathjax",
        .str "sphinx.ext.ifconfig",
        .str "sphinx.ext.viewcode",
        .str "sphinx.ext.inheritance_diagram",
        .str "sphinx_sitemap",
        .str "breathe",
        .str "myst_parser" ])),
    .assign "myst_enable_extensions" (.lit (.list
      [ .str "amsmath",
        .str "colon_fence",
        .str "deflist",
        .str "dollarmath",
        .str "fieldlist",
        .str "html_admonition",
        .str "html_image",
        .str "linkify",
        .str "replacements",
        .str "smartquotes",
        .str "strikethrough",
        .str "substitution",
        .str "tasklist" ])),
    .assign "templates_path" (.lit (.list [.str "_templates"])),
    .assign "exclude_patterns" (.lit (.list
      [.str "_build", .str "Thumbs.db", .str ".DS_Store"])),
    .assign "highlight_language" (.lit (.str "c++")),
    .assign "autosummary_generate" (.lit (.bool true)),
    .assign "html_baseurl" (.lit (.str "braxtons12.github.io/hyperion_mpl")),
    .assign "html_theme" (.lit (.str "pydata_sphinx_theme")),
    .assign "html_theme_options" (.lit (.dict
      [ ("github_url", .str "https://github.com/braxtons12/hyperion_mpl"),
        ("header_links_before_dropdown", .int 8),
        ("show_toc_level", .int 1),
        ("navigation_depth", .int 2),
        ("show_nav_level", .int 0),
        ("pygment_light_style", .str "manni"),
        ("pygment_dark_style", .str "one-dark"),
        ("navbar_start", .list [.str "navbar-logo", .str "theme-switcher"]),
        ("navbar_center", .list [.str "navbar-nav"]),
        ("navbar_end", .list [.str "navbar-icon-links"]),
        ("secondary_sidebar_items", .list [.str "page-toc"]),
        ("footer_items", .list
          [.str "copyright", .str "last-updated", .str "sphinx-version"]) ])),
    .assign "html_sidebars" (.lit (.dict
      [ ("**", .list
          [ .str "search-field", .str "navbar-nav",
            .str "sidebar-nav-bs", .str "sidebar-ethical-ads" ]) ])),
    .assign "html_context" (.lit (.dict [("default_mode", .str "dark")])),
    .assign "html_static_path" (.lit (.list [.str "_static"])),
    .assign "rst_prolog" (.lit (.str
      "\n.. role:: cpp(code)\n    :language: cpp\n    :class: highlight\n\n.. role:: rust(code)\n    :language: rust\n    :class: highlight\n\n.. role:: cmake(code)\n    :language: cmake\n    :class: highlight\n\n.. role:: bash(code)\n    :language: bash\n    :class: highlight\n\n.. role:: lua(code)\n    :language: lua\n    :class: highlight\n\n.. role:: xmake(code)\n    :language: lua\n    :class: highlight\n")),
    .assign "breathe_projects" (.lit (.dict [("hyperion::mpl", .str "_build/xml")])),
    .assign "breathe_default_project" (.lit (.str "hyperion::mpl")),
    .assign "breathe_default_members" (.paren (.lit (.str "members"))) ]

/-- One evaluation of the module, given the exit statuses of external-process
calls. -/
def evalModule (os : Nat → Int) : EvalState := runStmts os initState conf_py

/-- Look up the final value of a configuration variable (the last assignment
to that name wins, as in a Python module namespace). -/
def lookupConfig (st : EvalState) (n : String) : Option Value :=
  st.env.reverse.lookup n

/-- The external-process calls of a trace, in order: command and exit status. -/
def callsOf : List Event → List (String × Int)
  | [] => []
  | .calledProcess cmd code :: rest => (cmd, code) :: callsOf rest
  | _ :: rest => callsOf rest

/-- The expected module namespace after evaluation: each configuration
variable of `conf.py` with the value its assignment produces, in source
order. -/
def confEnv : List (String × Value) :=
  [ ("project", .str "hyperion::mpl"),
    ("copyright", .str "2024, Braxton Salyer <braxtonsalyer@gmail.com>"),
    ("author", .str "Braxton Salyer <braxtonsalyer@gmail.com>"),
    ("extensions", .list
      [ .str "sphinx.ext.autodoc",
        .str "sphinx.ext.autosummary",
        .str "sphinx.ext.intersphinx",
        .str "sphinx.ext.autosectionlabel",
        .str "sphinx.ext.todo",
        .str "sphinx.ext.coverage",
        .str "sphinx.ext.mathjax",
        .str "sphinx.ext.ifconfig",
        .str "sphinx.ext.viewcode",
        .str "sphinx.ext.inheritance_diagram",
        .str "sphinx_sitemap",
        .str "breathe",
        .str "myst_parser" ]),
    ("myst_enable_extensions", .list
      [ .str "amsmath",
        .str "colon_fence",
        .str "deflist",
        .str "dollarmath",
        .str "fieldlist",
        .str "html_admonition",
        .str "html_image",
        .str "linkify",
        .str "replacements",
        .str "smartquotes",
        .str "strikethrough",
        .str "substitution",
        .str "tasklist" ]),
    ("templates_path", .list [.str "_templates"]),
    ("exclude_patterns", .list [.str "_build", .str "Thumbs.db", .str ".DS_Store"]),
    ("highlight_language", .str "c++"),
    ("autosummary_generate", .bool true),
    ("html_baseurl", .str "braxtons12.github.io/hyperion_mpl"),
    ("html_theme", .str "pydata_sphinx_theme"),
    ("html_theme_options", .dict
      [ ("github_url", .str "https://github.com/braxtons12/hyperion_mpl"),
        ("header_links_before_dropdown", .int 8),
        ("show_toc_level", .int 1),
        ("navigation_depth", .int 2),
        ("show_nav_level", .int 0),
        ("pygment_light_style", .str "manni"),
        ("pygment_dark_style", .str "one-dark"),
        ("navbar_start", .list [.str "navbar-logo", .str "theme-switcher"]),
        ("navbar_center", .list [.str "navbar-nav"]),
        ("navbar_end", .list [.str "navbar-icon-links"]),
        ("secondary_sidebar_items", .list [.str "page-toc"]),
        ("footer_items", .list
          [.str "copyright", .str "last-updated", .str "sphinx-version"]) ]),
    ("html_sidebars", .dict
      [ ("**", .list
          [ .str "search-field", .str "navbar-nav",
            .str "sidebar-nav-bs", .str "sidebar-ethical-ads" ]) ]),
    ("html_context", .dict [("default_mode", .str "dark")]),
    ("html_static_path", .list [.str "_static"]),
    ("rst_prolog", .str
      "\n.. role:: cpp(code)\n    :language: cpp\n    :class: highlight\n\n.. role:: rust(code)\n    :language: rust\n    :class: highlight\n\n.. role:: cmake(code)\n    :language: cmake\n    :class: highlight\n\n.. role:: bash(code)\n    :language: bash\n    :class: highlight\n\n.. role:: lua(code)\n    :language: lua\n    :class: highlight\n\n.. role:: xmake(code)\n    :language: lua\n    :class: highlight\n"),
    ("breathe_projects", .dict [("hyperion::mpl", .str "_build/xml")]),
    ("breathe_default_project", .str "hyperion::mpl"),
    ("breathe_default_members", .str "members") ]

/-- The expected event trace of one evaluation in which the single
external-process call returns exit status `e`: the imports, the Doxygen
call, then every configuration assignment in source order. -/
def confTrace (e : Int) : List Event :=
  [ .fromImported "sphinx.builders.html" ["StandaloneHTMLBuilder"],
    .imported "subprocess",
    .imported "os",
    .calledProcess "doxygen Doxyfile" e ] ++
  confEnv.map fun p => .assigned p.1 p.2

def Value.isStr : Value → Bool
  | .str _ => true
  | _ => false

/-- Is the value a string or a dictionary?  (The shape the specification
ascribes to every configuration value.) -/
def Value.isStrOrDict : Value → Bool
  | .str _ => true
  | .dict _ => true
  | _ => false

def Value.isTuple : Value → Bool
  | .tuple _ => true
  | _ => false

/-- The value shapes the module actually assigns at top level: strings,
booleans, string-keyed dictionaries, and lists of strings. -/
def Value.isConfigShape : Value → Bool
  | .str _ => true
  | .bool _ => true
  | .dict _ => true
  | .list vs => vs.all Value.isStr
  | _ => false

/-- An expression is a constant literal, possibly parenthesized: it contains
no name reference. -/
def isConstExpr : PyExpr → Bool
  | .lit _ => true
  | .paren e => isConstExpr e
  | .name _ => false

def isImportStmt : Stmt → Bool
  | .importStmt _ => true
  | .fromImport _ _ => true
  | _ => false

def isConstAssign : Stmt → Bool
  | .assign _ rhs => isConstExpr rhs
  | _ => false

def isSubprocessCallStmt : Stmt → Bool
  | .subprocessCall _ _ => true
  | _ => false

def isCallEvent : Event → Bool
  | .calledProcess _ _ => true
  | _ => false

def isAssignEvent : Event → Bool
  | .assigned _ _ => true
  | _ => false

def isAssignEventOf (n : String) : Event → Bool
  | .assigned m _ => m == n
  | _ => false

def strOf : Option Value → Option String
  | some (.str s) => some s
  | _ => none

/-- Look a key up in an optional dictionary value. -/
def dictLookup : Option Value → String → Option Value
  | some (.dict kvs), k => kvs.lookup k
  | _, _ => none

def dictHasKey (v : Option Value) (k : String) : Bool :=
  (dictLookup v k).isSome

/-- Does an optional list value contain the given string as an element? -/
def listHasStr : Option Value → String → Bool
  | some (.list vs), s =>
    vs.any fun v =>
      match v with
      | .str t => t == s
      | _ => false
  | _, _ => false

/-- The final value of a configuration variable in the expected namespace. -/
def confLookup (n : String) : Option Value :=
  confEnv.reverse.lookup n

/-- Characterization of one evaluation of the module: it never halts, its
namespace is `confEnv`, and its trace is `confTrace` at the exit status the
oracle gives the single external-process call. -/
theorem evalModule_eq (os : Nat → Int) :
    evalModule os = { env := confEnv, trace := confTrace (os 0), halted := false } := by
  simp [evalModule, conf_py, runStmts, execStmt, initState, evalExpr, callCount,
    confEnv, confTrace]

theorem evalModule_env (os : Nat → Int) : (evalModule os).env = confEnv := by
  rw [evalModule_eq]

theorem evalModule_trace (os : Nat → Int) : (evalModule os).trace = confTrace (os 0) := by
  rw [evalModule_eq]

theorem evalModule_halted (os : Nat → Int) : (evalModule os).halted = false := by
  rw [evalModule_eq]

theorem lookupConfig_eval (os : Nat → Int) (n : String) :
    lookupConfig (evalModule os) n = confLookup n := by
  unfold lookupConfig confLookup
  rw [evalModule_env]

theorem confTrace_findIdx_call (e : Int) : (confTrace e).findIdx isCallEvent = 3 := rfl

theorem confTrace_findIdx_breathe_projects (e : Int) :
    (confTrace e).findIdx (isAssignEventOf "breathe_projects") = 20 := rfl

theorem confTrace_findIdx_breathe_default_project (e : Int) :
    (confTrace e).findIdx (isAssignEventOf "breathe_default_project") = 21 := rfl

/-- C1 (counterexample): the claim says every top-level configuration value
the module assigns is a string or a dictionary, but the value assigned to
`extensions` is a Python list, neither a string nor a dictionary. -/
theorem C1_counterexample_extensions_not_str_or_dict :
    (lookupConfig (evalModule fun _ => 0) "extensions").map Value.isStrOrDict = some false := by
  rw [lookupConfig_eval]
  rfl

/-- C1 (amended): every top-level configuration value the module assigns is
a string, a boolean, a string-keyed dictionary, or a list of strings, and
the only other observable behaviour is the imports and exactly one
external-process call. -/
theorem C1_config_values_shape (os : Nat → Int) :
    ((evalModule os).env.all fun p => Value.isConfigShape p.2) = true ∧
    (callsOf (evalModule os).trace).length = 1 := by
  refine ⟨?_, ?_⟩
  · rw [evalModule_env]
    rfl
  · rw [evalModule_trace]
    rfl

theorem C1_config_values_shape_witness :
    (((evalModule fun _ => 0).env.all fun p => Value.isConfigShape p.2) = true ∧
      (callsOf (evalModule fun _ => 0).trace).length = 1) :=
  C1_config_values_shape (fun _ => 0)

/-- C2: every evaluation of the module performs exactly one external-process
invocation, the command `doxygen Doxyfile`, whatever exit status the oracle
returns for it; no other subprocess is started. -/
theorem C2_single_doxygen_call (os : Nat → Int) :
    callsOf (evalModule os).trace = [("doxygen Doxyfile", os 0)] := by
  rw [evalModule_trace]
  rfl

theorem C2_single_doxygen_call_witness :
    callsOf (evalModule fun _ => 7).trace = [("doxygen Doxyfile", 7)] :=
  C2_single_doxygen_call (fun _ => 7)

/-- C3: for every exit status of the `doxygen Doxyfile` call (zero or not),
evaluation of the module completes without raising or aborting, and every
configuration assignment after the call is performed with the same values as
under any other exit status. -/
theorem C3_completes_regardless_of_exit_status (os : Nat → Int) :
    (evalModule os).halted = false ∧ (evalModule os).env = (evalModule fun _ => 0).env := by
  exact ⟨evalModule_halted os, by rw [evalModule_env, evalModule_env]⟩

theorem C3_completes_regardless_of_exit_status_witness :
    ((evalModule fun _ => 1).halted = false ∧
      (evalModule fun _ => 1).env = (evalModule fun _ => 0).env) :=
  C3_completes_regardless_of_exit_status (fun _ => 1)

/-- C4: the module contains no application logic: every top-level statement
is an import, an assignment of a constant literal (no name reference on any
right-hand side), or the subprocess call, and exactly one statement is a
subprocess call.  Function definitions, class definitions, conditionals and
loops are expressible in the statement type and occur nowhere in the
module. -/
theorem C4_module_is_straight_line_config :
    conf_py.all (fun s => isImportStmt s || isConstAssign s || isSubprocessCallStmt s) = true ∧
    conf_py.countP isSubprocessCallStmt = 1 := by
  exact ⟨rfl, rfl⟩

/-- C5: after every evaluation of the module, the configuration value
`project` is the string "hyperion::mpl". -/
theorem C5_project_name (os : Nat → Int) :
    lookupConfig (evalModule os) "project" = some (Value.str "hyperion::mpl") := by
  rw [lookupConfig_eval]
  rfl

theorem C5_project_name_witness :
    lookupConfig (evalModule fun _ => 0) "project" = some (Value.str "hyperion::mpl") :=
  C5_project_name (fun _ => 0)

/-- C6: after every evaluation of the module, the `extensions` list contains
"breathe", and `breathe_projects` maps the project name "hyperion::mpl" to
the Doxygen XML output directory "_build/xml". -/
theorem C6_breathe_integration (os : Nat → Int) :
    listHasStr (lookupConfig (evalModule os) "extensions") "breathe" = true ∧
    dictLookup (lookupConfig (evalModule os) "breathe_projects") "hyperion::mpl"
      = some (Value.str "_build/xml") := by
  refine ⟨?_, ?_⟩ <;> (rw [lookupConfig_eval]; rfl)

theorem C6_breathe_integration_witness :
    (listHasStr (lookupConfig (evalModule fun _ => 0) "extensions") "breathe" = true ∧
      dictLookup (lookupConfig (evalModule fun _ => 0) "breathe_projects") "hyperion::mpl"
        = some (Value.str "_build/xml")) :=
  C6_breathe_integration (fun _ => 0)

/-- C7: in the event trace of every evaluation, no configuration assignment
occurs before the external-process call to Doxygen, and the call occurs
strictly before the assignments of `breathe_projects` and of
`breathe_default_project`. -/
theorem C7_doxygen_call_precedes_breathe_config (os : Nat → Int) :
    ((evalModule os).trace.takeWhile fun e => !isCallEvent e).all (fun e => !isAssignEvent e)
      = true ∧
    (evalModule os).trace.findIdx isCallEvent
      < (evalModule os).trace.findIdx (isAssignEventOf "breathe_projects") ∧
    (evalModule os).trace.findIdx isCallEvent
      < (evalModule os).trace.findIdx (isAssignEventOf "breathe_default_project") := by
  rw [evalModule_trace]
  refine ⟨rfl, ?_, ?_⟩
  · rw [confTrace_findIdx_call, confTrace_findIdx_breathe_projects]
    decide
  · rw [confTrace_findIdx_call, confTrace_findIdx_breathe_default_project]
    decide

theorem C7_doxygen_call_precedes_breathe_config_witness :
    (((evalModule fun _ => 1).trace.takeWhile fun e => !isCallEvent e).all
        (fun e => !isAssignEvent e) = true ∧
      (evalModule fun _ => 1).trace.findIdx isCallEvent
        < (evalModule fun _ => 1).trace.findIdx (isAssignEventOf "breathe_projects") ∧
      (evalModule fun _ => 1).trace.findIdx isCallEvent
        < (evalModule fun _ => 1).trace.findIdx (isAssignEventOf "breathe_default_project")) :=
  C7_doxygen_call_precedes_breathe_config (fun _ => 1)

/-- C8: after every evaluation, the value of `breathe_default_project` is a
string that is a key of the dictionary `breathe_projects`, so the default
Breathe project resolves to a configured project. -/
theorem C8_default_project_configured (os : Nat → Int) :
    (strOf (lookupConfig (evalModule os) "breathe_default_project")).map
      (dictHasKey (lookupConfig (evalModule os) "breathe_projects")) = some true := by
  simp only [lookupConfig_eval]
  rfl

theorem C8_default_project_configured_witness :
    (strOf (lookupConfig (evalModule fun _ => 0) "breathe_default_project")).map
      (dictHasKey (lookupConfig (evalModule fun _ => 0) "breathe_projects")) = some true :=
  C8_default_project_configured (fun _ => 0)

/-- C9: after every evaluation, `breathe_default_members` is the single
string "members", not a tuple: the source expression is the parenthesized
string `('members')` with no trailing comma, and the evaluator treats such
parentheses as grouping. -/
theorem C9_default_members_string_not_tuple (os : Nat → Int) :
    lookupConfig (evalModule os) "breathe_default_members" = some (Value.str "members") ∧
    (lookupConfig (evalModule os) "breathe_default_members").map Value.isTuple = some false := by
  simp only [lookupConfig_eval]
  exact ⟨rfl, rfl⟩

theorem C9_default_members_string_not_tuple_witness :
    (lookupConfig (evalModule fun _ => 0) "breathe_default_members"
        = some (Value.str "members") ∧
      (lookupConfig (evalModule fun _ => 0) "breathe_default_members").map Value.isTuple
        = some false) :=
  C9_default_members_string_not_tuple (fun _ => 0)

/-- C10: evaluation is deterministic in the configuration it produces: any
two evaluations, whatever exit statuses their external-process calls return,
assign the same values to every configuration variable. -/
theorem C10_config_deterministic (os₁ os₂ : Nat → Int) :
    (evalModule os₁).env = (evalModule os₂).env := by
  rw [evalModule_env, evalModule_env]

theorem C10_config_deterministic_witness :
    (evalModule fun _ => 0).env = (evalModule fun _ => 1).env :=
  C10_config_deterministic (fun _ => 0) (fun _ => 1)

end ConfPy
